import Mathlib

/-!
Verification of the crawl logic of the amazonScraper repository
(src/amazonScraper/spiders/amazonSpider.py) against its natural-language
specification.  The spider's pure logic is shallowly embedded: selector
results appear as explicit inputs (the selector machinery is an external
collaborator), Python randomness is an explicit stream of draws, and the
behavior of the Scrapy middlewares that the spider merely configures
(retry, HTTP cache, download delay) is modelled from the specification,
with every numeric constant taken from the source `custom_settings`.
-/

namespace AmazonScraper

/-- Page kind of a request, determined in the source by its callback:
`parse` handles search-results pages, `parse_product` handles product pages. -/
inductive PageKind
  | searchResults
  | product
  deriving DecidableEq, Repr

/-- An outbound `scrapy.http.Request` as built by the spider: target URL, the
chosen User-Agent header, the optional proxy and referer from `meta`, and the
page kind implied by the callback. -/
structure Req where
  url : String
  userAgent : String
  proxy : Option String
  referer : Option String
  kind : PageKind
  deriving DecidableEq, Repr

/-- `AmazonSpider.USER_AGENTS`: the rotation pool of user-agent strings. -/
def USER_AGENTS : List String :=
  ["Mozilla/5.0 (Windows NT 10.0; Win64; x64) AppleWebKit/537.36 (KHTML, like Gecko) Chrome/100.0.4896.127 Safari/537.36",
   "Mozilla/5.0 (Macintosh; Intel Mac OS X 10_15_7) AppleWebKit/605.1.15 (KHTML, like Gecko) Version/15.1 Safari/605.1.15",
   "Mozilla/5.0 (X11; Ubuntu; Linux x86_64; rv:92.0) Gecko/20100101 Firefox/92.0"]

/-- `AmazonSpider.PROXIES` as written in the source: an empty pool (every
entry is commented out). The spec lists the proxy pool as configurable, so
operations that read it take the pool as a parameter. -/
def PROXIES : List String := []

/-- `random.choice(pool)` with an explicit random draw `r`: the element at the
uniformly drawn index `r mod pool.length`. -/
def randomChoice (pool : List String) (r : Nat) : String :=
  pool.getD (r % pool.length) ""

/-- `custom_settings.RETRY_TIMES`: number of retries after the first attempt. -/
def RETRY_TIMES : Nat := 5

/-- `custom_settings.HTTPCACHE_EXPIRATION_SECS`: cache TTL in seconds. -/
def HTTPCACHE_EXPIRATION_SECS : Nat := 86400

/-- `custom_settings.DOWNLOAD_DELAY`: the base per-dispatch delay (0.5),
randomized because `RANDOMIZE_DOWNLOAD_DELAY` is set. -/
def DOWNLOAD_DELAY : ℚ := 1 / 2

/-- Python attribute lookup `getattr(module, name, dflt)` over a module
modelled as an attribute table. -/
def getattrD (attrs : List (String × String)) (name dflt : String) : String :=
  match attrs.lookup name with
  | some v => v
  | none => dflt

/-- The `scrapy.utils.project` module: it is a library module defining
functions, and has no attribute named keyword, so the attribute table relevant
to the spider's lookup is empty. -/
def scrapyUtilsProject : List (String × String) := []

/-- Class attribute `AmazonSpider.keyword`, evaluated once at class-definition
time as `getattr(scrapy.utils.project, ..., ...)` with default laptops. -/
def classKeyword : String := getattrD scrapyUtilsProject "keyword" "laptops"

/-- Class attribute `AmazonSpider.start_urls`, built from `classKeyword` at
class-definition time (an f-string over the class-level keyword). -/
def start_urls : List String := ["https://www.amazon.com/s?k=" ++ classKeyword]

/-- The spider instance after `__init__`: Scrapy applies `-a` CLI arguments as
instance attributes, so a supplied keyword overrides the instance `keyword`
attribute, while class attributes such as `start_urls` keep the value computed
at class-definition time. -/
structure SpiderInstance where
  keyword : String
  startUrls : List String
  deriving DecidableEq, Repr

/-- Build the spider instance for an optional CLI-supplied keyword. -/
def mkSpider (cliKeyword : Option String) : SpiderInstance :=
  { keyword := cliKeyword.getD classKeyword, startUrls := start_urls }

/-- Helper for `start_requests`: walk the start URLs threading the index `k` of
the next unused random draw (one draw for the user-agent, and one more for the
proxy when the pool is non-empty). -/
def startRequestsAux (proxies : List String) (rand : Nat → Nat) :
    Nat → List String → List Req
  | _, [] => []
  | k, url :: rest =>
    let ua := randomChoice USER_AGENTS (rand k)
    if proxies.isEmpty then
      { url := url, userAgent := ua, proxy := none, referer := none,
        kind := PageKind.searchResults } :: startRequestsAux proxies rand (k + 1) rest
    else
      { url := url, userAgent := ua,
        proxy := some (randomChoice proxies (rand (k + 1))), referer := none,
        kind := PageKind.searchResults } :: startRequestsAux proxies rand (k + 2) rest

/-- `AmazonSpider.start_requests`: one request per start URL with a freshly
drawn user-agent, a proxy from the pool only when the pool is non-empty, and
callback `parse` (a search-results handler). -/
def start_requests (s : SpiderInstance) (proxies : List String)
    (rand : Nat → Nat) : List Req :=
  startRequestsAux proxies rand 0 s.startUrls

/-- A fetched search-results response at the selector boundary: the response
URL, for each search-result block the raw result of the product-link selector
(`none` when the selector matches nothing), and the raw result of the
pagination selector. -/
structure SearchPage where
  url : String
  resultBlocks : List (Option String)
  nextPage : Option String

/-- Python truthiness of an extracted href: the source skips a block with
`if not rel`, which drops both a missing href and an empty-string href. -/
def hasLink : Option String → Bool
  | none => false
  | some s => !(s == "")

/-- The product-request half of `AmazonSpider.parse`: walk the result blocks
in page order, skip blocks with a falsy href, and build one Product request
per linked block. `join` models `response.urljoin`; `k` is the index of the
next unused random draw; the unused-draw index is returned with the requests. -/
def parseBlocks (join : String → String → String) (rand : Nat → Nat)
    (base : String) : Nat → List (Option String) → List Req × Nat
  | k, [] => ([], k)
  | k, b :: rest =>
    if hasLink b then
      let req : Req := { url := join base (b.getD ""),
                         userAgent := randomChoice USER_AGENTS (rand k),
                         proxy := none, referer := some base,
                         kind := PageKind.product }
      let pr := parseBlocks join rand base (k + 1) rest
      (req :: pr.1, pr.2)
    else
      parseBlocks join rand base k rest

/-- `AmazonSpider.parse`: yield one Product request per result block carrying a
link, in page order, then at most one SearchResults request for the next page
(so product requests always precede the pagination request). The pagination
request is guarded by Python truthiness (`if next_page:`), so a missing href
and an empty-string href alike yield no pagination request. -/
def parse (join : String → String → String) (rand : Nat → Nat)
    (page : SearchPage) : List Req :=
  let pr := parseBlocks join rand page.url 0 page.resultBlocks
  if hasLink page.nextPage then
    pr.1 ++ [{ url := join page.url (page.nextPage.getD ""),
               userAgent := randomChoice USER_AGENTS (rand pr.2),
               proxy := none, referer := none,
               kind := PageKind.searchResults }]
  else pr.1

/-- Characters admitted by the ASIN character class (uppercase A-Z or digit). -/
def isAsinChar (c : Char) : Bool :=
  (65 ≤ c.toNat && c.toNat ≤ 90) || (48 ≤ c.toNat && c.toNat ≤ 57)

/-- One attempted match of the ASIN pattern at the head of the character list:
the literal /dp/ followed by exactly ten ASIN characters (the captured group). -/
def matchAsinAt : List Char → Option String
  | '/' :: 'd' :: 'p' :: '/' :: r2 =>
    let ten := List.take 10 r2
    if ten.length = 10 && ten.all isAsinChar then some (String.mk ten) else none
  | _ => none

/-- `re.search` of the ASIN pattern over the URL: leftmost match wins; on a
failed match at one position the scan resumes one character later. -/
def findAsin : List Char → Option String
  | [] => none
  | c :: rest =>
    match matchAsinAt (c :: rest) with
    | some a => some a
    | none => findAsin rest

/-- Python str.strip with no argument: drop whitespace from both ends,
modelled over the character list. -/
def pyStrip (s : String) : String :=
  String.mk (((s.toList.dropWhile Char.isWhitespace).reverse.dropWhile
    Char.isWhitespace).reverse)

/-- The local helper `extract` in `parse_product`: a selector result with
empty-string default, whitespace-stripped; a missing match becomes the empty
string. -/
def extract (raw : Option String) : String := pyStrip (raw.getD "")

/-- A fetched product response at the selector boundary. Each `Option String`
field is the raw result of the corresponding selector in `parse_product`
(`none` when the selector finds nothing). `imageData` is the outcome of the
colorImages script block: `none` when the script regex finds nothing,
`some (Except.error ())` when `json.loads` or the image-list extraction raises
(the source catches every exception), `some (Except.ok urls)` on success. -/
structure ProductResponse where
  url : String
  asinTable : Option String
  titleRaw : Option String
  priceRaw : Option String
  ratingRaw : Option String
  reviewsRaw : Option String
  featuresRaw : List String
  descRaw : Option String
  imageData : Option (Except Unit (List String))

/-- The item dictionary built by `parse_product` (the fields of `AmazonItem`
in items.py). -/
structure Item where
  asin : String
  title : String
  price : String
  rating : String
  reviews : String
  features : List String
  description : String
  images : List String
  url : String
  deriving DecidableEq, Repr

/-- `AmazonSpider.parse_product`: build the item by best-effort extraction and
increment the spider's item counter. The function is total: every successfully
fetched product page yields exactly one item. -/
def parse_product (resp : ProductResponse) (totalItems : Nat) : Item × Nat :=
  let asin := match findAsin resp.url.toList with
    | some a => a
    | none => extract resp.asinTable
  let features := (resp.featuresRaw.map pyStrip).filter (fun f => !(f == ""))
  let imgs := match resp.imageData with
    | none => []
    | some (Except.error _) => []
    | some (Except.ok l) => l
  ({ asin := asin,
     title := extract resp.titleRaw,
     price := extract resp.priceRaw,
     rating := extract resp.ratingRaw,
     reviews := extract resp.reviewsRaw,
     features := features,
     description := extract resp.descRaw,
     images := imgs,
     url := resp.url }, totalItems + 1)

/-- `AmazonSpider.spider_closed`: at shutdown, raise
CloseSpider("No items scraped — stopping spider") when the item counter is
zero, otherwise return normally. -/
def spider_closed (totalItems : Nat) : Except String Unit :=
  if totalItems = 0 then Except.error "No items scraped — stopping spider"
  else Except.ok ()

/-- Modelled from the spec: the failure taxonomy of a fetch. The classification
itself lives in the Scrapy retry middleware that `custom_settings` enables; it
is not under src/, so it is modelled from the specification's taxonomy:
transport timeout, connection reset, HTTP status error, malformed-response
parse error. -/
inductive ErrorKind
  | timeout
  | reset
  | http (status : Nat)
  | parseError
  deriving DecidableEq, Repr

/-- Modelled from the spec: a failure is retryable exactly for a transport
timeout, a connection reset, an HTTP 5xx status, or HTTP 429. -/
def retryable : ErrorKind → Bool
  | ErrorKind.timeout => true
  | ErrorKind.reset => true
  | ErrorKind.http s => (500 ≤ s && s ≤ 599) || s == 429
  | ErrorKind.parseError => false

/-- Lifecycle of one request in the retry loop: `pending a` means the request
sits in the frontier with `a` attempts already made; `exhausted a` means it was
terminally dropped after `a` attempts. -/
inductive ReqStatus
  | pending (attempts : Nat)
  | exhausted (attempts : Nat)
  deriving DecidableEq, Repr

/-- Modelled from the spec: one round of the retry loop for a request whose
fetch always fails with `kind`. A pending request is attempted once more; it is
re-enqueued while the failure is retryable and fewer than `maxRetries` retries
(`RETRY_TIMES` in `custom_settings`) have been used, otherwise it is reported
exhausted; an exhausted request is never re-enqueued. -/
def retryStep (maxRetries : Nat) (kind : ErrorKind) : ReqStatus → ReqStatus
  | ReqStatus.pending a =>
    if retryable kind ∧ a < maxRetries then ReqStatus.pending (a + 1)
    else ReqStatus.exhausted (a + 1)
  | ReqStatus.exhausted a => ReqStatus.exhausted a

/-- Modelled from the spec: a cache entry — the cached response with its
stored-at timestamp. -/
structure CacheEntry where
  response : String
  storedAt : Nat
  deriving DecidableEq, Repr

/-- The response cache as an association list from the normalized request key
to its entry (newest binding first). -/
abbrev Cache := List (String × CacheEntry)

/-- The cache TTL, from `HTTPCACHE_EXPIRATION_SECS` in `custom_settings`. -/
def cacheTTL : Nat := HTTPCACHE_EXPIRATION_SECS

/-- Modelled from the spec: `get` serves a stored entry only while
now - storedAt < TTL; an expired or missing entry is absent. -/
def cacheGet (c : Cache) (key : String) (now : Nat) : Option String :=
  match c.lookup key with
  | some e => if now - e.storedAt < cacheTTL then some e.response else none
  | none => none

/-- Modelled from the spec: `put` stores a fresh entry for the key, overwriting
any older binding. -/
def cachePut (c : Cache) (key resp : String) (now : Nat) : Cache :=
  (key, { response := resp, storedAt := now }) :: c

/-- Modelled from the spec: the cache is consulted before dispatch; a hit
short-circuits dispatch entirely, a miss dispatches one fetch (returning the
transport response `net`), stores it and increments the dispatch counter. -/
def fetchWithCache (c : Cache) (key : String) (now : Nat) (net : String)
    (dispatches : Nat) : String × Cache × Nat :=
  match cacheGet c key now with
  | some r => (r, c, dispatches)
  | none => (net, cachePut c key net now, dispatches + 1)

/-- Modelled from the spec: the per-dispatch pacing delay with jitter
`j` in [0,1): base_delay times (1 + j), base from `DOWNLOAD_DELAY` with
`RANDOMIZE_DOWNLOAD_DELAY` enabled. -/
def dispatchDelay (j : ℚ) : ℚ := DOWNLOAD_DELAY * (1 + j)

lemma retryStep_exhausted_absorbing (maxR : Nat) (k : ErrorKind) (a m : Nat) :
    (retryStep maxR k)^[m] (ReqStatus.exhausted a) = ReqStatus.exhausted a := by
  induction m with
  | zero => rfl
  | succ n ih =>
    rw [Function.iterate_succ_apply]
    exact ih

lemma retryStep_pending_iter (maxR : Nat) (k : ErrorKind)
    (hk : retryable k = true) :
    ∀ j, j ≤ maxR →
      (retryStep maxR k)^[j] (ReqStatus.pending 0) = ReqStatus.pending j := by
  intro j
  induction j with
  | zero => intro _; rfl
  | succ n ih =>
    intro hj
    rw [Function.iterate_succ_apply', ih (Nat.le_of_succ_le hj)]
    have hn : n < maxR := Nat.lt_of_succ_le hj
    simp [retryStep, hk, hn]

/-- C1: at shutdown the spider-closed handler raises the run-level hard
failure exactly when zero items were scraped; with at least one item emitted it
returns normally. -/
theorem c1_zero_items_is_hard_failure (totalItems : Nat) :
    (spider_closed totalItems = Except.error "No items scraped — stopping spider"
      ↔ totalItems = 0)
    ∧ (totalItems ≠ 0 → spider_closed totalItems = Except.ok ()) := by
  constructor
  · constructor
    · intro h
      by_contra hn
      simp [spider_closed, hn] at h
    · intro h
      simp [spider_closed, h]
  · intro h
    simp [spider_closed, h]

/-- Witness for C1 at the concrete counters 0 and 3. -/
theorem c1_zero_items_is_hard_failure_witness :
    spider_closed 0 = Except.error "No items scraped — stopping spider"
    ∧ spider_closed 3 = Except.ok () :=
  ⟨(c1_zero_items_is_hard_failure 0).1.mpr rfl,
   (c1_zero_items_is_hard_failure 3).2 (by decide)⟩

/-- C3: a request whose fetch always fails with a retryable error is attempted
exactly maxRetries + 1 times, after which it is exhausted and stays exhausted
(never re-enqueued) for every further round; the source default RETRY_TIMES
gives 6 attempts. -/
theorem c3_retry_bound (maxRetries : Nat) (k : ErrorKind)
    (hk : retryable k = true) :
    (retryStep maxRetries k)^[maxRetries + 1] (ReqStatus.pending 0)
      = ReqStatus.exhausted (maxRetries + 1)
    ∧ (∀ m, (retryStep maxRetries k)^[maxRetries + 1 + m] (ReqStatus.pending 0)
        = ReqStatus.exhausted (maxRetries + 1))
    ∧ RETRY_TIMES + 1 = 6 := by
  have hstep : (retryStep maxRetries k)^[maxRetries + 1] (ReqStatus.pending 0)
      = ReqStatus.exhausted (maxRetries + 1) := by
    rw [Function.iterate_succ_apply',
      retryStep_pending_iter maxRetries k hk maxRetries le_rfl]
    simp [retryStep]
  refine ⟨hstep, fun m => ?_, rfl⟩
  rw [Nat.add_comm (maxRetries + 1) m, Function.iterate_add_apply, hstep]
  exact retryStep_exhausted_absorbing maxRetries k (maxRetries + 1) m

/-- Witness for C3 at the always-timeout request with the default retry count. -/
theorem c3_retry_bound_witness :
    retryable ErrorKind.timeout = true
    ∧ (retryStep RETRY_TIMES ErrorKind.timeout)^[RETRY_TIMES + 1]
        (ReqStatus.pending 0) = ReqStatus.exhausted (RETRY_TIMES + 1) :=
  ⟨rfl, (c3_retry_bound RETRY_TIMES ErrorKind.timeout rfl).1⟩

/-- C4: a failure is classified retryable exactly when it is a transport
timeout, a connection reset, an HTTP 5xx, or HTTP 429; a non-retryable failure
is exhausted after exactly one attempt and never retried, and in particular
every other 4xx status and the parse-error kind are non-retryable. -/
theorem c4_failure_classification (maxRetries : Nat) (k : ErrorKind) :
    (retryable k = true ↔
      k = ErrorKind.timeout ∨ k = ErrorKind.reset
        ∨ (∃ s, 500 ≤ s ∧ s ≤ 599 ∧ k = ErrorKind.http s)
        ∨ k = ErrorKind.http 429)
    ∧ (retryable k = false →
        retryStep maxRetries k (ReqStatus.pending 0) = ReqStatus.exhausted 1
        ∧ ∀ m, (retryStep maxRetries k)^[m + 1] (ReqStatus.pending 0)
            = ReqStatus.exhausted 1)
    ∧ (∀ s, 400 ≤ s → s ≤ 499 → s ≠ 429 → retryable (ErrorKind.http s) = false)
    ∧ retryable ErrorKind.parseError = false := by
  refine ⟨?_, ?_, ?_, rfl⟩
  · cases k with
    | timeout => simp [retryable]
    | reset => simp [retryable]
    | http s =>
      simp only [retryable, Bool.or_eq_true, Bool.and_eq_true, decide_eq_true_eq,
        beq_iff_eq]
      constructor
      · intro h
        rcases h with ⟨h1, h2⟩ | h3
        · exact Or.inr (Or.inr (Or.inl ⟨s, h1, h2, rfl⟩))
        · exact Or.inr (Or.inr (Or.inr (by rw [h3])))
      · intro h
        rcases h with h | h | ⟨t, h1, h2, ht⟩ | h
        · exact ErrorKind.noConfusion h
        · exact ErrorKind.noConfusion h
        · injection ht with hst
          subst hst
          exact Or.inl ⟨h1, h2⟩
        · injection h with hs
          subst hs
          exact Or.inr rfl
    | parseError => simp [retryable]
  · intro hf
    have hone : retryStep maxRetries k (ReqStatus.pending 0)
        = ReqStatus.exhausted 1 := by
      simp [retryStep, hf]
    refine ⟨hone, fun m => ?_⟩
    rw [Function.iterate_succ_apply, hone]
    exact retryStep_exhausted_absorbing maxRetries k 1 m
  · intro s h4 h5 h6
    simp only [retryable, Bool.or_eq_false_iff, Bool.and_eq_false_iff,
      decide_eq_false_iff_not, beq_eq_false_iff_ne, ne_eq]
    omega

/-- Witness for C4 at the terminal HTTP 404 and the retryable HTTP 503. -/
theorem c4_failure_classification_witness :
    retryStep RETRY_TIMES (ErrorKind.http 404) (ReqStatus.pending 0)
      = ReqStatus.exhausted 1
    ∧ retryable (ErrorKind.http 503) = true :=
  ⟨((c4_failure_classification RETRY_TIMES (ErrorKind.http 404)).2.1
      (by decide)).1,
   (c4_failure_classification RETRY_TIMES (ErrorKind.http 503)).1.mpr
     (Or.inr (Or.inr (Or.inl ⟨503, by decide, by decide, rfl⟩)))⟩

/-- C5: a stored entry is served by get only while now - storedAt < TTL; at or
after storedAt + TTL the key is absent; and a hit within the TTL is served with
no second dispatch (the dispatch counter is unchanged and the cache untouched). -/
theorem c5_cache_ttl (c : Cache) (key : String) (e : CacheEntry) (now : Nat)
    (hfound : c.lookup key = some e) :
    (now - e.storedAt < cacheTTL → cacheGet c key now = some e.response)
    ∧ (e.storedAt + cacheTTL ≤ now → cacheGet c key now = none)
    ∧ (now - e.storedAt < cacheTTL →
        ∀ net d, fetchWithCache c key now net d = (e.response, c, d)) := by
  have hget : now - e.storedAt < cacheTTL → cacheGet c key now = some e.response := by
    intro h
    simp [cacheGet, hfound, h]
  refine ⟨hget, ?_, ?_⟩
  · intro h
    have hexp : ¬(now - e.storedAt < cacheTTL) := by omega
    simp [cacheGet, hfound, hexp]
  · intro h net d
    simp [fetchWithCache, hget h]

/-- Witness for C5 on a one-entry cache stored at time 100, probed at 200
(fresh) and at 86500 = storedAt + TTL (expired). -/
theorem c5_cache_ttl_witness :
    cacheGet [("GET k", CacheEntry.mk "resp" 100)] "GET k" 200 = some "resp"
    ∧ cacheGet [("GET k", CacheEntry.mk "resp" 100)] "GET k" 86500 = none
    ∧ fetchWithCache [("GET k", CacheEntry.mk "resp" 100)] "GET k" 200 "net" 7
        = ("resp", [("GET k", CacheEntry.mk "resp" 100)], 7) :=
  ⟨(c5_cache_ttl [("GET k", CacheEntry.mk "resp" 100)] "GET k"
      (CacheEntry.mk "resp" 100) 200 rfl).1 (by decide),
   (c5_cache_ttl [("GET k", CacheEntry.mk "resp" 100)] "GET k"
      (CacheEntry.mk "resp" 100) 86500 rfl).2.1 (by decide),
   (c5_cache_ttl [("GET k", CacheEntry.mk "resp" 100)] "GET k"
      (CacheEntry.mk "resp" 100) 200 rfl).2.2 (by decide) "net" 7⟩

/-- C6: the pacing delay is base times (1 + j) for jitter j in [0,1), so every
dispatch delay lies in [base, 2 base), with base = 1/2 from DOWNLOAD_DELAY. -/
theorem c6_dispatch_delay_bounds (j : ℚ) (h0 : 0 ≤ j) (h1 : j < 1) :
    dispatchDelay j = DOWNLOAD_DELAY * (1 + j)
    ∧ DOWNLOAD_DELAY ≤ dispatchDelay j
    ∧ dispatchDelay j < 2 * DOWNLOAD_DELAY
    ∧ DOWNLOAD_DELAY = 1 / 2 := by
  refine ⟨rfl, ?_, ?_, rfl⟩
  · simp only [dispatchDelay, DOWNLOAD_DELAY]
    linarith
  · simp only [dispatchDelay, DOWNLOAD_DELAY]
    linarith

/-- Witness for C6 at jitter 1/2. -/
theorem c6_dispatch_delay_bounds_witness :
    DOWNLOAD_DELAY ≤ dispatchDelay (1 / 2)
    ∧ dispatchDelay (1 / 2) < 2 * DOWNLOAD_DELAY :=
  ⟨(c6_dispatch_delay_bounds (1 / 2) (by norm_num) (by norm_num)).2.1,
   (c6_dispatch_delay_bounds (1 / 2) (by norm_num) (by norm_num)).2.2.1⟩

lemma randomChoice_mem (pool : List String) (r : Nat) (h : pool ≠ []) :
    randomChoice pool r ∈ pool := by
  have hlen : r % pool.length < pool.length :=
    Nat.mod_lt _ (List.length_pos.mpr h)
  unfold randomChoice
  rw [List.getD_eq_getElem pool "" hlen]
  exact List.getElem_mem hlen

lemma parseBlocks_kinds (join : String → String → String) (rand : Nat → Nat)
    (base : String) :
    ∀ (blocks : List (Option String)) (k : Nat),
      ((parseBlocks join rand base k blocks).1).map Req.kind
        = List.replicate (blocks.countP hasLink) PageKind.product := by
  intro blocks
  induction blocks with
  | nil => intro k; simp [parseBlocks]
  | cons b rest ih =>
    intro k
    by_cases hb : hasLink b = true
    · simp [parseBlocks, hb, List.countP_cons, ih, List.replicate_succ]
    · simp [parseBlocks, hb, List.countP_cons, ih]

lemma parseBlocks_urls (join : String → String → String) (rand : Nat → Nat)
    (base : String) :
    ∀ (blocks : List (Option String)) (k : Nat),
      ((parseBlocks join rand base k blocks).1).map Req.url
        = blocks.filterMap
            (fun b => if hasLink b then some (join base (b.getD "")) else none) := by
  intro blocks
  induction blocks with
  | nil => intro k; simp [parseBlocks]
  | cons b rest ih =>
    intro k
    by_cases hb : hasLink b = true
    · simp [parseBlocks, hb, ih]
    · simp [parseBlocks, hb, ih]

lemma parseBlocks_mem (join : String → String → String) (rand : Nat → Nat)
    (base : String) :
    ∀ (blocks : List (Option String)) (k : Nat),
      ∀ r ∈ (parseBlocks join rand base k blocks).1,
        r.kind = PageKind.product ∧ r.proxy = none
          ∧ r.userAgent ∈ USER_AGENTS := by
  intro blocks
  induction blocks with
  | nil => intro k r hr; simp [parseBlocks] at hr
  | cons b rest ih =>
    intro k r hr
    by_cases hb : hasLink b = true
    · have hre : (parseBlocks join rand base k (b :: rest)).1
          = { url := join base (b.getD ""),
              userAgent := randomChoice USER_AGENTS (rand k),
              proxy := none, referer := some base, kind := PageKind.product }
            :: (parseBlocks join rand base (k + 1) rest).1 := by
        simp [parseBlocks, hb]
      rw [hre] at hr
      rcases List.mem_cons.mp hr with hr | hr
      · subst hr
        exact ⟨rfl, rfl, randomChoice_mem USER_AGENTS _ (by simp [USER_AGENTS])⟩
      · exact ih (k + 1) r hr
    · have hre : (parseBlocks join rand base k (b :: rest)).1
          = (parseBlocks join rand base k rest).1 := by
        simp [parseBlocks, hb]
      rw [hre] at hr
      exact ih k r hr

lemma startRequestsAux_mem (proxies : List String) (rand : Nat → Nat) :
    ∀ (urls : List String) (k : Nat), ∀ r ∈ startRequestsAux proxies rand k urls,
      r.userAgent ∈ USER_AGENTS
      ∧ (proxies ≠ [] → r.proxy.isSome = true ∧ r.proxy.getD "" ∈ proxies) := by
  intro urls
  induction urls with
  | nil => intro k r hr; simp [startRequestsAux] at hr
  | cons url rest ih =>
    intro k r hr
    by_cases hp : proxies.isEmpty = true
    · have hre : startRequestsAux proxies rand k (url :: rest)
          = { url := url, userAgent := randomChoice USER_AGENTS (rand k),
              proxy := none, referer := none, kind := PageKind.searchResults }
            :: startRequestsAux proxies rand (k + 1) rest := by
        simp [startRequestsAux, hp]
      rw [hre] at hr
      rcases List.mem_cons.mp hr with hr | hr
      · subst hr
        refine ⟨randomChoice_mem USER_AGENTS _ (by simp [USER_AGENTS]), fun hne => ?_⟩
        exact absurd (List.isEmpty_iff.mp hp) hne
      · exact ih (k + 1) r hr
    · have hre : startRequestsAux proxies rand k (url :: rest)
          = { url := url, userAgent := randomChoice USER_AGENTS (rand k),
              proxy := some (randomChoice proxies (rand (k + 1))), referer := none,
              kind := PageKind.searchResults }
            :: startRequestsAux proxies rand (k + 2) rest := by
        simp [startRequestsAux, hp]
      rw [hre] at hr
      rcases List.mem_cons.mp hr with hr | hr
      · subst hr
        refine ⟨randomChoice_mem USER_AGENTS _ (by simp [USER_AGENTS]), fun hne => ?_⟩
        exact ⟨rfl, randomChoice_mem proxies _ hne⟩
      · exact ih (k + 2) r hr

/-- C2: on a search page whose N result blocks all carry a link, completion
handling enqueues exactly one Product request per link and, when a (truthy)
next-page link exists, exactly one SearchResults request after all the product
requests; with no next-page link (the selector finds nothing, or only a falsy
empty href), no SearchResults request is enqueued. -/
theorem c2_enqueue_ordering (join : String → String → String) (rand : Nat → Nat)
    (page : SearchPage)
    (hall : ∀ b ∈ page.resultBlocks, hasLink b = true) :
    (∀ np, page.nextPage = some np → np ≠ "" →
        (parse join rand page).map Req.kind
          = List.replicate page.resultBlocks.length PageKind.product
              ++ [PageKind.searchResults])
    ∧ (hasLink page.nextPage = false →
        (parse join rand page).map Req.kind
          = List.replicate page.resultBlocks.length PageKind.product) := by
  obtain ⟨u, blocks, next⟩ := page
  have hcount : blocks.countP hasLink = blocks.length :=
    List.countP_eq_length.mpr hall
  constructor
  · intro np hnp hne
    subst hnp
    simp [parse, hasLink, hne, parseBlocks_kinds, hcount]
  · intro hnp
    simp [parse, hnp, parseBlocks_kinds, hcount]

/-- Witness for C2 on a concrete page with two linked blocks and a next-page
link, and nothing else. -/
theorem c2_enqueue_ordering_witness :
    (parse (fun b r => b ++ r) (fun k => k)
        (SearchPage.mk "https://www.amazon.com/s?k=laptops"
          [some "/dp/B000000001", some "/dp/B000000002"]
          (some "/s?k=laptops&page=2"))).map Req.kind
      = [PageKind.product, PageKind.product, PageKind.searchResults] :=
  (c2_enqueue_ordering (fun b r => b ++ r) (fun k => k)
      (SearchPage.mk "https://www.amazon.com/s?k=laptops"
        [some "/dp/B000000001", some "/dp/B000000002"]
        (some "/s?k=laptops&page=2"))
      (by decide)).1 "/s?k=laptops&page=2" rfl (by decide)

/-- C10: a result block whose href is falsy is silently skipped; the product
requests enqueued for a page are exactly, in page order, one per block that
does carry a link, with the link joined against the page URL. -/
theorem c10_linkless_blocks_skipped (join : String → String → String)
    (rand : Nat → Nat) (page : SearchPage) :
    ((parse join rand page).filter
        (fun r => decide (r.kind = PageKind.product))).map Req.url
      = page.resultBlocks.filterMap
          (fun b => if hasLink b then some (join page.url (b.getD "")) else none) := by
  obtain ⟨u, blocks, next⟩ := page
  have hprod : ∀ r ∈ (parseBlocks join rand u 0 blocks).1,
      (fun r => decide (r.kind = PageKind.product)) r = true := by
    intro r hr
    have h := (parseBlocks_mem join rand u blocks 0 r hr).1
    simp [h]
  have hfilter : (parseBlocks join rand u 0 blocks).1.filter
        (fun r => decide (r.kind = PageKind.product))
      = (parseBlocks join rand u 0 blocks).1 :=
    List.filter_eq_self.mpr hprod
  by_cases hn : hasLink next = true
  · have hre : parse join rand (SearchPage.mk u blocks next)
        = (parseBlocks join rand u 0 blocks).1
          ++ [{ url := join u (next.getD ""),
                userAgent := randomChoice USER_AGENTS
                  (rand (parseBlocks join rand u 0 blocks).2),
                proxy := none, referer := none,
                kind := PageKind.searchResults }] := by
      simp [parse, hn]
    rw [hre, List.filter_append, hfilter]
    simp [parseBlocks_urls]
  · have hre : parse join rand (SearchPage.mk u blocks next)
        = (parseBlocks join rand u 0 blocks).1 := by
      simp [parse, hn]
    rw [hre, hfilter, parseBlocks_urls]

/-- C9 counterexample: even with a non-empty proxy pool configured, the
product request built by completion handling carries no proxy — `parse` never
consults the pool (its `meta` holds only the referer), so the claim fails for
product requests. -/
theorem c9_counterexample :
    (["http://proxy1:8080"] : List String) ≠ []
    ∧ (parse (fun b r => b ++ r) (fun k => k)
        (SearchPage.mk "https://www.amazon.com/s?k=laptops"
          [some "/dp/B000000001"] none)).map Req.proxy = [none] :=
  ⟨by decide, rfl⟩

/-- C9 amended: every outbound request carries a user-agent freshly drawn from
the rotation pool; but a proxy is attached only to the seed requests (when the
pool is non-empty) — requests created by completion handling (product and
next-page) are always built without a proxy. -/
theorem c9_rotation_amended (s : SpiderInstance) (proxies : List String)
    (rand : Nat → Nat) (join : String → String → String) (page : SearchPage) :
    (∀ r ∈ start_requests s proxies rand,
        r.userAgent ∈ USER_AGENTS
        ∧ (proxies ≠ [] → r.proxy.isSome = true ∧ r.proxy.getD "" ∈ proxies))
    ∧ (∀ r ∈ parse join rand page,
        r.userAgent ∈ USER_AGENTS ∧ r.proxy = none) := by
  constructor
  · intro r hr
    exact startRequestsAux_mem proxies rand s.startUrls 0 r hr
  · obtain ⟨u, blocks, next⟩ := page
    intro r hr
    by_cases hn : hasLink next = true
    · have hre : parse join rand (SearchPage.mk u blocks next)
          = (parseBlocks join rand u 0 blocks).1
            ++ [{ url := join u (next.getD ""),
                  userAgent := randomChoice USER_AGENTS
                    (rand (parseBlocks join rand u 0 blocks).2),
                  proxy := none, referer := none,
                  kind := PageKind.searchResults }] := by
        simp [parse, hn]
      rw [hre] at hr
      rcases List.mem_append.mp hr with hr | hr
      · have h := parseBlocks_mem join rand u blocks 0 r hr
        exact ⟨h.2.2, h.2.1⟩
      · rw [List.mem_singleton] at hr
        subst hr
        exact ⟨randomChoice_mem USER_AGENTS _ (by simp [USER_AGENTS]), rfl⟩
    · have hre : parse join rand (SearchPage.mk u blocks next)
          = (parseBlocks join rand u 0 blocks).1 := by
        simp [parse, hn]
      rw [hre] at hr
      have h := parseBlocks_mem join rand u blocks 0 r hr
      exact ⟨h.2.2, h.2.1⟩

/-- Witness for C9 amended: the concrete seed request drawn with a one-proxy
pool carries a pool user-agent and that proxy. -/
theorem c9_rotation_amended_witness :
    (Req.mk "https://www.amazon.com/s?k=laptops" (randomChoice USER_AGENTS 0)
        (some "http://proxy1:8080") none PageKind.searchResults).userAgent
      ∈ USER_AGENTS
    ∧ (Req.mk "https://www.amazon.com/s?k=laptops" (randomChoice USER_AGENTS 0)
        (some "http://proxy1:8080") none PageKind.searchResults).proxy.isSome
      = true
    ∧ (Req.mk "https://www.amazon.com/s?k=laptops" (randomChoice USER_AGENTS 0)
        (some "http://proxy1:8080") none PageKind.searchResults).proxy.getD ""
      ∈ (["http://proxy1:8080"] : List String) := by
  have h := (c9_rotation_amended (mkSpider none) ["http://proxy1:8080"]
      (fun _ => 0) (fun b _ => b) (SearchPage.mk "u" [] none)).1
      (Req.mk "https://www.amazon.com/s?k=laptops" (randomChoice USER_AGENTS 0)
        (some "http://proxy1:8080") none PageKind.searchResults)
      (by decide)
  exact ⟨h.1, (h.2 (by decide)).1, (h.2 (by decide)).2⟩

/-- C7: building a product record never fails — the function is total, each
scalar field whose extraction finds nothing is the empty string, a malformed
image JSON yields an empty image list, and the item counter grows by exactly
one for the page. -/
theorem c7_record_never_fails (resp : ProductResponse) (n : Nat) :
    (parse_product resp n).2 = n + 1
    ∧ (resp.titleRaw = none → (parse_product resp n).1.title = "")
    ∧ (resp.priceRaw = none → (parse_product resp n).1.price = "")
    ∧ (resp.ratingRaw = none → (parse_product resp n).1.rating = "")
    ∧ (resp.reviewsRaw = none → (parse_product resp n).1.reviews = "")
    ∧ (resp.descRaw = none → (parse_product resp n).1.description = "")
    ∧ (resp.imageData = some (Except.error ()) →
        (parse_product resp n).1.images = []) := by
  obtain ⟨u, a0, t0, p0, r0, v0, f0, d0, i0⟩ := resp
  refine ⟨rfl, fun h => ?_, fun h => ?_, fun h => ?_, fun h => ?_,
    fun h => ?_, fun h => ?_⟩
  all_goals subst h
  all_goals rfl

/-- Witness for C7 on a product page where every selector finds nothing and
the image JSON is malformed. -/
theorem c7_record_never_fails_witness :
    (parse_product (ProductResponse.mk "https://www.amazon.com/gp/product/x"
        none none none none none [] none (some (Except.error ()))) 0).2 = 1
    ∧ (parse_product (ProductResponse.mk "https://www.amazon.com/gp/product/x"
        none none none none none [] none (some (Except.error ()))) 0).1.title = ""
    ∧ (parse_product (ProductResponse.mk "https://www.amazon.com/gp/product/x"
        none none none none none [] none (some (Except.error ()))) 0).1.images
      = [] := by
  have h := c7_record_never_fails
    (ProductResponse.mk "https://www.amazon.com/gp/product/x"
      none none none none none [] none (some (Except.error ()))) 0
  exact ⟨h.1, h.2.1 rfl, h.2.2.2.2.2.2 rfl⟩

/-- C8: the code at the failing input — supplying keyword widgets at process
start updates the instance attribute, but the single seeded request still
targets the URL built from the class-time default laptops: `start_urls` is
computed once at class-definition time from an attribute lookup on
`scrapy.utils.project` that a CLI keyword never reaches, contradicting the
spider's own docstring (override via -a keyword on CLI). With no keyword
supplied the default laptops is used, and exactly one seed request is made. -/
theorem c8_seed_url_ignores_cli_keyword :
    (mkSpider (some "widgets")).keyword = "widgets"
    ∧ (start_requests (mkSpider (some "widgets")) PROXIES (fun k => k)).map Req.url
        = ["https://www.amazon.com/s?k=laptops"]
    ∧ (start_requests (mkSpider none) PROXIES (fun k => k)).map Req.url
        = ["https://www.amazon.com/s?k=laptops"]
    ∧ classKeyword = "laptops" :=
  ⟨rfl, rfl, rfl, rfl⟩

end AmazonScraper
